import Mathlib

/-!
Verification of the screen logic in `tui/python/notcurses_components.py`.

Each screen class is embedded as a state structure plus a `step` function that
models one iteration of the `show` loop: it consumes the key string returned by
`wait_for_key` and either keeps looping (with an updated state) or returns a
value.  Rendering calls are pure output and are not modelled.  A `none` result
models a raised exception (an out-of-range list index).  Python integers are
modelled as `Int` (with Euclidean `%`, which agrees with Python `%` for
positive divisors, and `Int.fdiv` for `//`), Python sets as `Finset String`,
and Python lists/dicts as Lean lists (a dict as an association list).
-/

/-- Return values of a `show` method: every screen returns a string except
`DeviceSelectionScreen.show`, which can return `list(self.selected_drives)`;
the set models the Python set (the order `list()` produces is unspecified). -/
inductive ShowRet where
  | str (s : String)
  | drives (d : Finset String)
deriving DecidableEq

/-- Whether a returned value is a string. -/
def ShowRet.isStr : ShowRet → Bool
  | .str _ => true
  | .drives _ => false

/-- Outcome of one iteration of a `show` loop: keep looping with a new screen
state, or return a value to the caller. -/
inductive StepOut (σ : Type) where
  | loop (s : σ)
  | ret (v : ShowRet)
deriving DecidableEq

/-- Python `str.lower()` (ASCII case folding, which covers the keys the code
compares against). -/
def pyLower (s : String) : String :=
  ⟨s.data.map Char.toLower⟩

/-- Strict lexicographic comparison of char lists by code point, the order
Python string comparison uses. -/
def charListLt : List Char → List Char → Bool
  | [], [] => false
  | [], _ :: _ => true
  | _ :: _, [] => false
  | a :: as, b :: bs => if a < b then true else if b < a then false else charListLt as bs

/-- `a <= b` on Python strings (total order, so `a <= b` iff `not (b < a)`). -/
def pyStrLe (a b : String) : Bool :=
  !(charListLt b.data a.data)

/-- Python list indexing `l[i]`: negative indices count from the end; an
out-of-range index raises `IndexError`, modelled as `none`. -/
def pyIndex {α : Type} (l : List α) (i : Int) : Option α :=
  let j := if i < 0 then i + l.length else i
  if 0 ≤ j then l.get? j.toNat else none

/-- Insert a string into a sorted list, keeping it sorted (stable). -/
def insertSorted (a : String) : List String → List String
  | [] => [a]
  | b :: l => if pyStrLe a b then a :: b :: l else b :: insertSorted a l

/-- Python `sorted` on strings (lexicographic by code point; `sorted` is a
stable sort, and insertion sort as written is stable, so the two agree). -/
def pySorted : List String → List String
  | [] => []
  | a :: l => insertSorted a (pySorted l)

/-- Drive the `while True:` input loop of a `show` method over a list of key
events: stop at the first returned value; `none` models an uncaught exception;
if the keys run out the screen is still looping in state `s`. -/
def runKeys {σ : Type} (step : σ → String → Option (StepOut σ)) (s : σ) :
    List String → Option (StepOut σ)
  | [] => some (.loop s)
  | k :: ks =>
    match step s k with
    | none => none
    | some (.ret v) => some (.ret v)
    | some (.loop s') => runKeys step s' ks

/-- The state a key leaves a screen in when the step loops; otherwise the
state is returned unchanged (used only to name concrete states). -/
def afterKey {σ : Type} (step : σ → String → Option (StepOut σ)) (s : σ)
    (k : String) : σ :=
  match step s k with
  | some (.loop s') => s'
  | _ => s

/-! ## WelcomeScreen -/

/-- One iteration of `WelcomeScreen.show`'s input loop. -/
def WelcomeScreen.step (key : String) : Option (StepOut Unit) :=
  if key = "\n" ∨ key = "\r" ∨ key = " " then some (.ret (.str "next"))
  else if pyLower key = "q" then some (.ret (.str "quit"))
  else some (.loop ())

/-! ## ModeSelectionScreen -/

/-- State of `ModeSelectionScreen`: the cursor `selected` and the fixed list
of `(mode_id, mode_name, mode_desc)` triples. -/
structure ModeSelectionScreen where
  selected : Int
  modes : List (String × String × String)
deriving DecidableEq

/-- `ModeSelectionScreen.__init__`. -/
def ModeSelectionScreen.init : ModeSelectionScreen :=
  { selected := 0,
    modes := [("new", "New Installation", "Install ZFS on empty drives (DESTROYS data)"),
              ("existing", "Migrate System", "Copy running system to new ZFS installation")] }

/-- One iteration of `ModeSelectionScreen.show`'s loop. -/
def ModeSelectionScreen.step (s : ModeSelectionScreen) (key : String) :
    Option (StepOut ModeSelectionScreen) :=
  if key = "\n" ∨ key = "\r" then
    (pyIndex s.modes s.selected).map (fun m => .ret (.str m.1))
  else if key = "j" ∨ key = "down" then
    some (.loop { s with selected := (s.selected + 1) % (s.modes.length : Int) })
  else if key = "k" ∨ key = "up" then
    some (.loop { s with selected := (s.selected - 1) % (s.modes.length : Int) })
  else if key = "escape" then some (.ret (.str "back"))
  else if pyLower key = "q" then some (.ret (.str "quit"))
  else some (.loop s)

/-! ## DeviceSelectionScreen -/

/-- The `devices[dev]` metadata record (`size_bytes`, `model`, `type`). -/
structure DeviceInfo where
  size_bytes : Int
  model : String
  type : String
deriving DecidableEq

/-- State of `DeviceSelectionScreen`: the externally supplied `devices`
mapping, the selection set, the cursor, and `device_list`. -/
structure DeviceSelectionScreen where
  devices : List (String × DeviceInfo)
  selected_drives : Finset String
  cursor : Int
  device_list : List String
deriving DecidableEq

/-- `DeviceSelectionScreen.__init__`: `selected_drives = set(selected_drives)`,
`cursor = 0`, `device_list = sorted(devices.keys())`. -/
def DeviceSelectionScreen.init (devices : List (String × DeviceInfo))
    (selected_drives : List String) : DeviceSelectionScreen :=
  { devices := devices,
    selected_drives := selected_drives.toFinset,
    cursor := 0,
    device_list := pySorted (devices.map Prod.fst) }

/-- `DeviceSelectionScreen.format_size`. -/
def DeviceSelectionScreen.format_size (size_bytes : Int) : String :=
  let gb := Int.fdiv size_bytes (1024 ^ 3)
  if gb > 1024 then toString (Int.fdiv gb 1024) ++ "TB"
  else toString gb ++ "GB"

/-- One iteration of `DeviceSelectionScreen.show`'s loop.  On ENTER with an
empty selection the `if len(...) > 0` guard fails and the loop re-reads input
with the state unchanged. -/
def DeviceSelectionScreen.step (s : DeviceSelectionScreen) (key : String) :
    Option (StepOut DeviceSelectionScreen) :=
  if key = "\n" ∨ key = "\r" then
    some (if 0 < s.selected_drives.card then .ret (.drives s.selected_drives)
          else .loop s)
  else if key = " " then
    if s.device_list.isEmpty then some (.loop s)
    else
      (pyIndex s.device_list s.cursor).map (fun dev =>
        .loop { s with selected_drives :=
          (if dev ∈ s.selected_drives then s.selected_drives.erase dev
           else insert dev s.selected_drives) })
  else if key = "j" ∨ key = "down" then
    some (.loop (if s.device_list.isEmpty then s
      else { s with cursor := (s.cursor + 1) % (s.device_list.length : Int) }))
  else if key = "k" ∨ key = "up" then
    some (.loop (if s.device_list.isEmpty then s
      else { s with cursor := (s.cursor - 1) % (s.device_list.length : Int) }))
  else if key = "escape" then some (.ret (.str "back"))
  else if pyLower key = "q" then some (.ret (.str "quit"))
  else some (.loop s)

/-! ## Placeholder screens -/

/-- One iteration of `SettingsScreen.show`'s loop. -/
def SettingsScreen.step (key : String) : Option (StepOut Unit) :=
  if key = "\n" ∨ key = "\r" then some (.ret (.str "next"))
  else if key = "escape" then some (.ret (.str "back"))
  else if pyLower key = "q" then some (.ret (.str "quit"))
  else some (.loop ())

/-- One iteration of `ValidationScreen.show`'s loop. -/
def ValidationScreen.step (key : String) : Option (StepOut Unit) :=
  if key = "\n" ∨ key = "\r" then some (.ret (.str "valid"))
  else if key = "escape" then some (.ret (.str "back"))
  else if pyLower key = "q" then some (.ret (.str "quit"))
  else some (.loop ())

/-- One iteration of `ConfirmationScreen.show`'s loop. -/
def ConfirmationScreen.step (key : String) : Option (StepOut Unit) :=
  if pyLower key = "y" then some (.ret (.str "proceed"))
  else if pyLower key = "n" ∨ key = "escape" then some (.ret (.str "back"))
  else if pyLower key = "q" then some (.ret (.str "quit"))
  else some (.loop ())

/-- `InstallationScreen` carries the opaque installer `state` it is
constructed with. -/
structure InstallationScreen (α : Type) where
  state : α

/-- `InstallationScreen.show`: no input loop at all; it sleeps (not modelled)
and returns `"success"` unconditionally. -/
def InstallationScreen.show {α : Type} (_scr : InstallationScreen α) : ShowRet :=
  .str "success"

/-- `CompletionScreen.show`: reads one key (whatever it is) and returns
`"quit"`. -/
def CompletionScreen.show (_key : String) : ShowRet :=
  .str "quit"

/-! ## Helper lemmas -/

theorem insertSorted_perm (a : String) (l : List String) :
    List.Perm (insertSorted a l) (a :: l) := by
  induction l with
  | nil => rfl
  | cons b l ih =>
    unfold insertSorted
    split_ifs
    · rfl
    · exact (ih.cons b).trans (List.Perm.swap a b l)

theorem pySorted_perm (l : List String) : List.Perm (pySorted l) l := by
  induction l with
  | nil => rfl
  | cons a l ih =>
    exact (insertSorted_perm a (pySorted l)).trans (ih.cons a)

theorem pySorted_mem {l : List String} {a : String} : a ∈ pySorted l ↔ a ∈ l :=
  (pySorted_perm l).mem_iff

theorem pySorted_length (l : List String) : (pySorted l).length = l.length :=
  (pySorted_perm l).length_eq

theorem pyIndex_eq_get {α : Type} {l : List α} {i : Int} (h0 : 0 ≤ i) :
    pyIndex l i = l.get? i.toNat := by
  simp only [pyIndex]
  rw [if_neg (not_lt.mpr h0), if_pos h0]

theorem pyIndex_isSome {α : Type} {l : List α} {i : Int} (h0 : 0 ≤ i)
    (h1 : i < l.length) : ∃ a, pyIndex l i = some a := by
  rw [pyIndex_eq_get h0]
  have ht : i.toNat < l.length := by omega
  exact ⟨l.get ⟨i.toNat, ht⟩, List.get?_eq_get ht⟩

theorem pyIndex_mem {α : Type} {l : List α} {i : Int} {a : α}
    (h : pyIndex l i = some a) : a ∈ l := by
  simp only [pyIndex] at h
  split_ifs at h
  · exact List.get?_mem h
  · exact List.get?_mem h

theorem emod_add_one_wrap {c n : Int} (h0 : 0 ≤ c) (h1 : c < n) :
    (c + 1) % n = if c = n - 1 then 0 else c + 1 := by
  split_ifs with hc
  · subst hc
    simp [Int.emod_self]
  · exact Int.emod_eq_of_lt (by omega) (by omega)

theorem emod_sub_one_wrap {c n : Int} (h0 : 0 ≤ c) (h1 : c < n) :
    (c - 1) % n = if c = 0 then n - 1 else c - 1 := by
  split_ifs with hc
  · subst hc
    have e1 : ((n - 1) + n * (-1)) % n = (n - 1) % n :=
      Int.add_mul_emod_self_left (n - 1) n (-1)
    have e3 : (n - 1) + n * (-1) = -1 := by ring
    rw [e3] at e1
    have e4 : (0 - 1 : Int) = -1 := by ring
    rw [e4, e1]
    exact Int.emod_eq_of_lt (by omega) (by omega)
  · exact Int.emod_eq_of_lt (by omega) (by omega)

theorem emod_bounds {a n : Int} (h : 0 < n) : 0 ≤ a % n ∧ a % n < n :=
  ⟨Int.emod_nonneg a (by omega), Int.emod_lt_of_pos a h⟩

theorem device_step_loop_spec {s s' : DeviceSelectionScreen} {k : String}
    (h : DeviceSelectionScreen.step s k = some (.loop s')) :
    s'.devices = s.devices ∧ s'.device_list = s.device_list ∧
    (s'.selected_drives = s.selected_drives ∨
      ∃ dev, pyIndex s.device_list s.cursor = some dev ∧
        s'.selected_drives = (if dev ∈ s.selected_drives
          then s.selected_drives.erase dev else insert dev s.selected_drives)) ∧
    (s'.cursor = s.cursor ∨
      (s.device_list ≠ [] ∧
        (s'.cursor = (s.cursor + 1) % (s.device_list.length : Int) ∨
         s'.cursor = (s.cursor - 1) % (s.device_list.length : Int)))) := by
  unfold DeviceSelectionScreen.step at h
  split_ifs at h with h1 hc h2 h3 h4 h5 h6 h7 h8 h9
  · simp at h
  · simp only [Option.some.injEq, StepOut.loop.injEq] at h
    subst h
    exact ⟨rfl, rfl, Or.inl rfl, Or.inl rfl⟩
  · simp only [Option.some.injEq, StepOut.loop.injEq] at h
    subst h
    exact ⟨rfl, rfl, Or.inl rfl, Or.inl rfl⟩
  · cases hp : pyIndex s.device_list s.cursor with
    | none => rw [hp] at h; simp at h
    | some dev =>
      rw [hp] at h
      simp only [Option.map_some', Option.some.injEq, StepOut.loop.injEq] at h
      subst h
      exact ⟨rfl, rfl, Or.inr ⟨dev, rfl, rfl⟩, Or.inl rfl⟩
  · simp only [Option.some.injEq, StepOut.loop.injEq] at h
    subst h
    exact ⟨rfl, rfl, Or.inl rfl, Or.inl rfl⟩
  · simp only [Option.some.injEq, StepOut.loop.injEq] at h
    subst h
    refine ⟨rfl, rfl, Or.inl rfl, Or.inr ⟨fun hnil => ?_, Or.inl rfl⟩⟩
    rw [hnil] at h5
    simp at h5
  · simp only [Option.some.injEq, StepOut.loop.injEq] at h
    subst h
    exact ⟨rfl, rfl, Or.inl rfl, Or.inl rfl⟩
  · simp only [Option.some.injEq, StepOut.loop.injEq] at h
    subst h
    refine ⟨rfl, rfl, Or.inl rfl, Or.inr ⟨fun hnil => ?_, Or.inr rfl⟩⟩
    rw [hnil] at h7
    simp at h7
  · simp at h
  · simp at h
  · simp only [Option.some.injEq, StepOut.loop.injEq] at h
    subst h
    exact ⟨rfl, rfl, Or.inl rfl, Or.inl rfl⟩

theorem device_step_isSome (s : DeviceSelectionScreen) (k : String)
    (hcur : s.device_list = [] ∨ (0 ≤ s.cursor ∧ s.cursor < s.device_list.length)) :
    DeviceSelectionScreen.step s k ≠ none := by
  unfold DeviceSelectionScreen.step
  split_ifs with h1 hc h2 h3 h4 h5 h6 h7 h8 h9 <;> try simp
  rcases hcur with hnil | ⟨hc0, hc1⟩
  · rw [hnil] at h3
    simp at h3
  · obtain ⟨a, ha⟩ := pyIndex_isSome hc0 hc1
    simp [ha]

theorem device_step_ret_spec {s : DeviceSelectionScreen} {k : String}
    {r : ShowRet} (h : DeviceSelectionScreen.step s k = some (.ret r)) :
    ((k = "\n" ∨ k = "\r") ∧ 0 < s.selected_drives.card ∧
      r = .drives s.selected_drives) ∨ r = .str "back" ∨ r = .str "quit" := by
  unfold DeviceSelectionScreen.step at h
  split_ifs at h with h1 hc h2 h3 h4 h5 h6 h7 h8 h9
  · simp only [Option.some.injEq, StepOut.ret.injEq] at h
    exact Or.inl ⟨h1, hc, h.symm⟩
  · simp at h
  · simp at h
  · cases hp : pyIndex s.device_list s.cursor <;> rw [hp] at h <;> simp at h
  · simp at h
  · simp at h
  · simp at h
  · simp at h
  · simp only [Option.some.injEq, StepOut.ret.injEq] at h
    exact Or.inr (Or.inl h.symm)
  · simp only [Option.some.injEq, StepOut.ret.injEq] at h
    exact Or.inr (Or.inr h.symm)
  · simp at h

theorem mode_step_loop_spec {s s' : ModeSelectionScreen} {k : String}
    (h : ModeSelectionScreen.step s k = some (.loop s')) :
    s'.modes = s.modes ∧
    (s'.selected = s.selected ∨
     s'.selected = (s.selected + 1) % (s.modes.length : Int) ∨
     s'.selected = (s.selected - 1) % (s.modes.length : Int)) := by
  unfold ModeSelectionScreen.step at h
  split_ifs at h with h1 h2 h3 h4 h5
  · cases hp : pyIndex s.modes s.selected <;> rw [hp] at h <;> simp at h
  · simp only [Option.some.injEq, StepOut.loop.injEq] at h
    subst h
    exact ⟨rfl, Or.inr (Or.inl rfl)⟩
  · simp only [Option.some.injEq, StepOut.loop.injEq] at h
    subst h
    exact ⟨rfl, Or.inr (Or.inr rfl)⟩
  · simp at h
  · simp at h
  · simp only [Option.some.injEq, StepOut.loop.injEq] at h
    subst h
    exact ⟨rfl, Or.inl rfl⟩

theorem mode_step_isSome (s : ModeSelectionScreen) (k : String)
    (h0 : 0 ≤ s.selected) (h1 : s.selected < s.modes.length) :
    ModeSelectionScreen.step s k ≠ none := by
  unfold ModeSelectionScreen.step
  split_ifs with hk1 hk2 hk3 hk4 hk5 <;> try simp
  obtain ⟨a, ha⟩ := pyIndex_isSome h0 h1
  simp [ha]

theorem mode_step_ret_spec {s : ModeSelectionScreen} {k : String}
    {r : ShowRet} (h : ModeSelectionScreen.step s k = some (.ret r)) :
    (∃ m, pyIndex s.modes s.selected = some m ∧ r = .str m.1) ∨
    r = .str "back" ∨ r = .str "quit" := by
  unfold ModeSelectionScreen.step at h
  split_ifs at h with h1 h2 h3 h4 h5
  · cases hp : pyIndex s.modes s.selected with
    | none => rw [hp] at h; simp at h
    | some m =>
      rw [hp] at h
      simp only [Option.map_some', Option.some.injEq, StepOut.ret.injEq] at h
      exact Or.inl ⟨m, rfl, h.symm⟩
  · simp at h
  · simp at h
  · simp only [Option.some.injEq, StepOut.ret.injEq] at h
    exact Or.inr (Or.inl h.symm)
  · simp only [Option.some.injEq, StepOut.ret.injEq] at h
    exact Or.inr (Or.inr h.symm)
  · simp at h

theorem runKeys_inv {σ : Type} (step : σ → String → Option (StepOut σ))
    (P : σ → Prop) (Q : ShowRet → Prop)
    (hstep : ∀ s k, P s → ∃ out, step s k = some out ∧
      (∀ s', out = .loop s' → P s') ∧ (∀ r, out = .ret r → Q r)) :
    ∀ (ks : List String) (s : σ), P s →
      ∃ out, runKeys step s ks = some out ∧
        (∀ s', out = .loop s' → P s') ∧ (∀ r, out = .ret r → Q r)
  | [], s, hP =>
    ⟨.loop s, rfl, fun s' hs' => by cases hs'; exact hP, fun r hr => by cases hr⟩
  | k :: ks, s, hP => by
    obtain ⟨out, hout, hloop, hret⟩ := hstep s k hP
    cases out with
    | ret v =>
      refine ⟨.ret v, ?_, ?_, ?_⟩
      · simp [runKeys, hout]
      · intro s1 hs1
        cases hs1
      · intro r hr
        cases hr
        exact hret v rfl
    | loop s1 =>
      obtain ⟨out2, hout2, h2, h3⟩ := runKeys_inv step P Q hstep ks s1 (hloop s1 rfl)
      refine ⟨out2, ?_, h2, h3⟩
      simp [runKeys, hout, hout2]

/-! ## State invariants -/

theorem isEmpty_false_of_ne_nil {α : Type} {l : List α} (h : l ≠ []) :
    l.isEmpty = false := by
  cases l with
  | nil => exact absurd rfl h
  | cons a l => rfl

theorem device_ext_fields {s t : DeviceSelectionScreen}
    (h1 : s.devices = t.devices) (h2 : s.selected_drives = t.selected_drives)
    (h3 : s.cursor = t.cursor) (h4 : s.device_list = t.device_list) : s = t := by
  cases s
  cases t
  simp_all

/-- Invariant maintained by `DeviceSelectionScreen.show` on a screen built by
`__init__`: `device_list` is the sorted key list, the cursor is in bounds
whenever the device list is non-empty, and every selected drive is either a
device key or came from the initial selection `sel0`. -/
def DeviceSelectionScreen.Inv (keys : List String) (sel0 : Finset String)
    (s : DeviceSelectionScreen) : Prop :=
  s.device_list = pySorted keys ∧
  (s.device_list = [] ∨ (0 ≤ s.cursor ∧ s.cursor < s.device_list.length)) ∧
  (∀ x ∈ s.selected_drives, x ∈ keys ∨ x ∈ sel0)

theorem device_init_inv (devices : List (String × DeviceInfo))
    (init_sel : List String) :
    DeviceSelectionScreen.Inv (devices.map Prod.fst) init_sel.toFinset
      (DeviceSelectionScreen.init devices init_sel) := by
  refine ⟨rfl, ?_, ?_⟩
  · by_cases hd : pySorted (devices.map Prod.fst) = []
    · exact Or.inl hd
    · right
      refine ⟨le_refl 0, ?_⟩
      show (0 : Int) < (pySorted (devices.map Prod.fst)).length
      have := List.length_pos.mpr hd
      exact_mod_cast this
  · intro x hx
    exact Or.inr hx

theorem device_step_inv {keys : List String} {sel0 : Finset String}
    (s : DeviceSelectionScreen) (k : String)
    (h : DeviceSelectionScreen.Inv keys sel0 s) :
    ∃ out, DeviceSelectionScreen.step s k = some out ∧
      (∀ s', out = .loop s' → DeviceSelectionScreen.Inv keys sel0 s') := by
  obtain ⟨hdl, hcur, hsel⟩ := h
  have hne := device_step_isSome s k hcur
  cases hout : DeviceSelectionScreen.step s k with
  | none => exact absurd hout hne
  | some out =>
    refine ⟨out, rfl, fun s' hs' => ?_⟩
    subst hs'
    obtain ⟨hd, hl, hselc, hcurc⟩ := device_step_loop_spec hout
    refine ⟨hl.trans hdl, ?_, ?_⟩
    · rw [hl]
      rcases hcurc with hcc | ⟨hne2, hcc⟩
      · rw [hcc]
        exact hcur
      · right
        have hlen : (0 : Int) < s.device_list.length := by
          have := List.length_pos.mpr hne2
          exact_mod_cast this
        rcases hcc with hcc | hcc <;> rw [hcc] <;>
          exact ⟨(emod_bounds hlen).1, (emod_bounds hlen).2⟩
    · rcases hselc with hss | ⟨dev, hdev, hss⟩
      · rw [hss]
        exact hsel
      · intro x hx
        rw [hss] at hx
        by_cases hxd : x = dev
        · subst hxd
          have hm : x ∈ s.device_list := pyIndex_mem hdev
          rw [hdl] at hm
          exact Or.inl (pySorted_mem.mp hm)
        · split_ifs at hx with hmem
          · exact hsel x (Finset.mem_of_mem_erase hx)
          · rcases Finset.mem_insert.mp hx with hh | hh
            · exact absurd hh hxd
            · exact hsel x hh

/-- Invariant of `ModeSelectionScreen.show`: the cursor stays in bounds. -/
def ModeSelectionScreen.Inv (s : ModeSelectionScreen) : Prop :=
  0 ≤ s.selected ∧ s.selected < s.modes.length

theorem mode_init_inv : ModeSelectionScreen.Inv ModeSelectionScreen.init := by
  constructor <;> decide

theorem mode_step_inv (s : ModeSelectionScreen) (k : String)
    (h : ModeSelectionScreen.Inv s) :
    ∃ out, ModeSelectionScreen.step s k = some out ∧
      (∀ s', out = .loop s' → ModeSelectionScreen.Inv s') := by
  have hne := mode_step_isSome s k h.1 h.2
  cases hout : ModeSelectionScreen.step s k with
  | none => exact absurd hout hne
  | some out =>
    refine ⟨out, rfl, fun s' hs' => ?_⟩
    subst hs'
    obtain ⟨hm, hselc⟩ := mode_step_loop_spec hout
    have hlen : (0 : Int) < s.modes.length := lt_of_le_of_lt h.1 h.2
    rcases hselc with hc | hc | hc
    · rw [ModeSelectionScreen.Inv, hm, hc]
      exact h
    · rw [ModeSelectionScreen.Inv, hm, hc]
      exact ⟨(emod_bounds hlen).1, (emod_bounds hlen).2⟩
    · rw [ModeSelectionScreen.Inv, hm, hc]
      exact ⟨(emod_bounds hlen).1, (emod_bounds hlen).2⟩

/-- SPACE with a non-empty device list toggles the device under the cursor. -/
theorem device_step_space {s : DeviceSelectionScreen}
    (hne : s.device_list ≠ []) {dev : String}
    (hdev : pyIndex s.device_list s.cursor = some dev) :
    DeviceSelectionScreen.step s " " = some (.loop { s with selected_drives :=
      (if dev ∈ s.selected_drives then s.selected_drives.erase dev
       else insert dev s.selected_drives) }) := by
  unfold DeviceSelectionScreen.step
  rw [if_neg (by decide), if_pos rfl,
    if_neg (by simp [isEmpty_false_of_ne_nil hne]), hdev]
  rfl

/-! ## Concrete data for witnesses and counterexamples -/

/-- Concrete device metadata. -/
def exInfo : DeviceInfo := { size_bytes := 500 * 1024 ^ 3, model := "ModelX", type := "ssd" }

/-- A concrete two-drive devices mapping. -/
def exDevices : List (String × DeviceInfo) := [("sdb", exInfo), ("sda", exInfo)]

/-- The screen built from `exDevices` with nothing pre-selected. -/
def exScr : DeviceSelectionScreen := DeviceSelectionScreen.init exDevices []

/-- The screen built from an empty devices mapping and empty selection. -/
def exEmpty : DeviceSelectionScreen := DeviceSelectionScreen.init [] []

/-! ## Claims -/

/-- C1: in `DeviceSelectionScreen.show`, an ENTER key (`"\n"` or `"\r"`)
returns the selected drives exactly when the selection set is non-empty; with
an empty selection the loop re-reads input with the state unchanged, so
"continue" is blocked when no drive is selected. -/
theorem C1_enter_blocked_without_selection (s : DeviceSelectionScreen) :
    DeviceSelectionScreen.step s "\n" =
      some (if s.selected_drives = ∅ then .loop s
            else .ret (.drives s.selected_drives)) ∧
    DeviceSelectionScreen.step s "\r" =
      some (if s.selected_drives = ∅ then .loop s
            else .ret (.drives s.selected_drives)) := by
  constructor <;>
  · unfold DeviceSelectionScreen.step
    rw [if_pos (by simp)]
    congr 1
    by_cases hs : s.selected_drives = ∅
    · simp [hs]
    · rw [if_neg hs, if_pos (Finset.card_pos.mpr (Finset.nonempty_iff_ne_empty.mpr hs))]

/-- C2 as stated is false: a screen constructed from an empty devices mapping
and initial selection `["sda"]` already violates "selection set ⊆ device
keys" (and would even return `["sda"]` on ENTER), after zero key events. -/
theorem C2_counterexample :
    runKeys DeviceSelectionScreen.step (DeviceSelectionScreen.init [] ["sda"]) [] =
      some (.loop (DeviceSelectionScreen.init [] ["sda"])) ∧
    "sda" ∈ (DeviceSelectionScreen.init [] ["sda"]).selected_drives ∧
    "sda" ∉ (([] : List (String × DeviceInfo)).map Prod.fst) := by
  refine ⟨rfl, by decide, by decide⟩

/-- C2 (amended): provided every drive in the initial `selected_drives` list
is a key of `devices`, after any sequence of key events processed by `show`
the selection set stays a subset of the device keys. -/
theorem C2_selection_subset_of_keys (devices : List (String × DeviceInfo))
    (init_sel : List String)
    (hinit : ∀ x ∈ init_sel, x ∈ devices.map Prod.fst)
    (ks : List String) (s' : DeviceSelectionScreen)
    (hrun : runKeys DeviceSelectionScreen.step
      (DeviceSelectionScreen.init devices init_sel) ks = some (.loop s')) :
    ∀ x ∈ s'.selected_drives, x ∈ devices.map Prod.fst := by
  obtain ⟨out, hout, hloop, -⟩ := runKeys_inv DeviceSelectionScreen.step
    (DeviceSelectionScreen.Inv (devices.map Prod.fst) init_sel.toFinset)
    (fun _ => True)
    (fun s k hP => by
      obtain ⟨o, ho, hl⟩ := device_step_inv s k hP
      exact ⟨o, ho, hl, fun _ _ => trivial⟩)
    ks (DeviceSelectionScreen.init devices init_sel)
    (device_init_inv devices init_sel)
  have hInv := hloop s' (Option.some.inj (hout.symm.trans hrun))
  intro x hx
  rcases hInv.2.2 x hx with hk | h0
  · exact hk
  · exact hinit x (List.mem_toFinset.mp h0)

/-- Witness for C2: a concrete instantiation of the amended claim. -/
theorem C2_witness : "sda" ∈ exDevices.map Prod.fst :=
  C2_selection_subset_of_keys exDevices ["sda"] (by decide) []
    (DeviceSelectionScreen.init exDevices ["sda"]) rfl "sda" (by decide)

/-- C3: from a freshly constructed screen, after any sequence of key events
the cursor stays within list bounds (`selected` for `ModeSelectionScreen`,
`cursor` for a `DeviceSelectionScreen` with a non-empty device list), and no
step raises an out-of-range indexing error. -/
theorem C3_cursor_in_bounds :
    (∀ ks : List String,
      runKeys ModeSelectionScreen.step ModeSelectionScreen.init ks ≠ none ∧
      ∀ s', runKeys ModeSelectionScreen.step ModeSelectionScreen.init ks =
          some (.loop s') → 0 ≤ s'.selected ∧ s'.selected < s'.modes.length) ∧
    (∀ (devices : List (String × DeviceInfo)) (init_sel : List String),
      devices ≠ [] → ∀ ks : List String,
      runKeys DeviceSelectionScreen.step
        (DeviceSelectionScreen.init devices init_sel) ks ≠ none ∧
      ∀ s', runKeys DeviceSelectionScreen.step
          (DeviceSelectionScreen.init devices init_sel) ks = some (.loop s') →
        0 ≤ s'.cursor ∧ s'.cursor < s'.device_list.length) := by
  constructor
  · intro ks
    obtain ⟨out, hout, hloop, -⟩ := runKeys_inv ModeSelectionScreen.step
      ModeSelectionScreen.Inv (fun _ => True)
      (fun s k hP => by
        obtain ⟨o, ho, hl⟩ := mode_step_inv s k hP
        exact ⟨o, ho, hl, fun _ _ => trivial⟩)
      ks ModeSelectionScreen.init mode_init_inv
    refine ⟨by rw [hout]; exact fun hf => Option.noConfusion hf, ?_⟩
    intro s' h
    exact hloop s' (Option.some.inj (hout.symm.trans h))
  · intro devices init_sel hdev ks
    obtain ⟨out, hout, hloop, -⟩ := runKeys_inv DeviceSelectionScreen.step
      (DeviceSelectionScreen.Inv (devices.map Prod.fst) init_sel.toFinset)
      (fun _ => True)
      (fun s k hP => by
        obtain ⟨o, ho, hl⟩ := device_step_inv s k hP
        exact ⟨o, ho, hl, fun _ _ => trivial⟩)
      ks (DeviceSelectionScreen.init devices init_sel)
      (device_init_inv devices init_sel)
    refine ⟨by rw [hout]; exact fun hf => Option.noConfusion hf, ?_⟩
    intro s' h
    have hInv := hloop s' (Option.some.inj (hout.symm.trans h))
    rcases hInv.2.1 with hnil | hb
    · exfalso
      rw [hInv.1] at hnil
      have hlen := pySorted_length (devices.map Prod.fst)
      rw [hnil] at hlen
      have hmapnil : devices.map Prod.fst = [] := List.length_eq_zero.mp hlen.symm
      exact hdev (List.map_eq_nil_iff.mp hmapnil)
    · exact hb

/-- Witness for C3 at a concrete screen and key sequence. -/
theorem C3_witness :
    0 ≤ (afterKey DeviceSelectionScreen.step exScr "j").cursor ∧
    (afterKey DeviceSelectionScreen.step exScr "j").cursor <
      ((afterKey DeviceSelectionScreen.step exScr "j").device_list.length : Int) :=
  (C3_cursor_in_bounds.2 exDevices [] (by decide) ["j"]).2
    (afterKey DeviceSelectionScreen.step exScr "j") (by decide)

/-- C4: navigation wraps around on list boundaries: down/j at the last index
moves to index 0, up/k at index 0 moves to the last index, and otherwise down
increments and up decrements the cursor by one, in both `ModeSelectionScreen`
and `DeviceSelectionScreen` (with a non-empty device list). -/
theorem C4_navigation_wraps :
    (∀ s : ModeSelectionScreen, 0 ≤ s.selected → s.selected < s.modes.length →
      (∀ k, k = "j" ∨ k = "down" →
        ModeSelectionScreen.step s k = some (.loop { s with selected :=
          if s.selected = (s.modes.length : Int) - 1 then 0
          else s.selected + 1 })) ∧
      (∀ k, k = "k" ∨ k = "up" →
        ModeSelectionScreen.step s k = some (.loop { s with selected :=
          if s.selected = 0 then (s.modes.length : Int) - 1
          else s.selected - 1 }))) ∧
    (∀ s : DeviceSelectionScreen, s.device_list ≠ [] →
      0 ≤ s.cursor → s.cursor < s.device_list.length →
      (∀ k, k = "j" ∨ k = "down" →
        DeviceSelectionScreen.step s k = some (.loop { s with cursor :=
          if s.cursor = (s.device_list.length : Int) - 1 then 0
          else s.cursor + 1 })) ∧
      (∀ k, k = "k" ∨ k = "up" →
        DeviceSelectionScreen.step s k = some (.loop { s with cursor :=
          if s.cursor = 0 then (s.device_list.length : Int) - 1
          else s.cursor - 1 }))) := by
  constructor
  · intro s h0 h1
    constructor
    · rintro k (rfl | rfl) <;>
      · unfold ModeSelectionScreen.step
        rw [if_neg (by decide), if_pos (by simp), emod_add_one_wrap h0 h1]
    · rintro k (rfl | rfl) <;>
      · unfold ModeSelectionScreen.step
        rw [if_neg (by decide), if_neg (by decide), if_pos (by simp),
          emod_sub_one_wrap h0 h1]
  · intro s hne h0 h1
    have hie : ¬(s.device_list.isEmpty = true) := by
      simp [isEmpty_false_of_ne_nil hne]
    constructor
    · rintro k (rfl | rfl) <;>
      · unfold DeviceSelectionScreen.step
        rw [if_neg (by decide), if_neg (by decide), if_pos (by simp),
          if_neg hie, emod_add_one_wrap h0 h1]
    · rintro k (rfl | rfl) <;>
      · unfold DeviceSelectionScreen.step
        rw [if_neg (by decide), if_neg (by decide), if_neg (by decide),
          if_pos (by simp), if_neg hie, emod_sub_one_wrap h0 h1]

/-- Witness for C4: up at index 0 wraps to the last index on the concrete
two-drive screen. -/
theorem C4_witness :
    DeviceSelectionScreen.step exScr "k" = some (.loop { exScr with cursor :=
      if exScr.cursor = 0 then (exScr.device_list.length : Int) - 1
      else exScr.cursor - 1 }) :=
  (C4_navigation_wraps.2 exScr (by decide) (by decide) (by decide)).2 "k"
    (Or.inl rfl)

/-- C5 as stated (toggling twice equals toggling once) is false: on the
concrete two-drive screen one SPACE selects `sda`, a second SPACE deselects
it, so the selection sets after one and after two presses differ. -/
theorem C5_counterexample :
    DeviceSelectionScreen.step exScr " " =
      some (.loop (afterKey DeviceSelectionScreen.step exScr " ")) ∧
    DeviceSelectionScreen.step (afterKey DeviceSelectionScreen.step exScr " ") " " =
      some (.loop (afterKey DeviceSelectionScreen.step
        (afterKey DeviceSelectionScreen.step exScr " ") " ")) ∧
    (afterKey DeviceSelectionScreen.step
        (afterKey DeviceSelectionScreen.step exScr " ") " ").selected_drives ≠
      (afterKey DeviceSelectionScreen.step exScr " ").selected_drives := by
  refine ⟨by decide, by decide, by decide⟩

/-- C5 (amended): the SPACE toggle is an involution, not idempotent: from any
state with a non-empty device list and in-bounds cursor, two SPACE steps with
the cursor unchanged restore the selection set to exactly its prior value. -/
theorem C5_toggle_involution (s : DeviceSelectionScreen)
    (hne : s.device_list ≠ []) (h0 : 0 ≤ s.cursor)
    (h1 : s.cursor < s.device_list.length) (s1 s2 : DeviceSelectionScreen)
    (h2 : DeviceSelectionScreen.step s " " = some (.loop s1))
    (h3 : DeviceSelectionScreen.step s1 " " = some (.loop s2)) :
    s2.selected_drives = s.selected_drives := by
  obtain ⟨dev, hdev⟩ := pyIndex_isSome h0 h1
  rw [device_step_space hne hdev] at h2
  have hs1 := StepOut.loop.inj (Option.some.inj h2)
  have hfl : s1.device_list = s.device_list := by rw [← hs1]
  have hfc : s1.cursor = s.cursor := by rw [← hs1]
  have hfs : s1.selected_drives =
      (if dev ∈ s.selected_drives then s.selected_drives.erase dev
       else insert dev s.selected_drives) := by rw [← hs1]
  have hne1 : s1.device_list ≠ [] := by rw [hfl]; exact hne
  have hdev1 : pyIndex s1.device_list s1.cursor = some dev := by
    rw [hfl, hfc]; exact hdev
  rw [device_step_space hne1 hdev1] at h3
  have hs2 := StepOut.loop.inj (Option.some.inj h3)
  have hgoal : s2.selected_drives =
      (if dev ∈ s1.selected_drives then s1.selected_drives.erase dev
       else insert dev s1.selected_drives) := by rw [← hs2]
  rw [hgoal, hfs]
  by_cases hmem : dev ∈ s.selected_drives
  · simp [hmem, Finset.not_mem_erase, Finset.insert_erase hmem]
  · simp [hmem, Finset.erase_insert hmem]

/-- Witness for C5 on the concrete two-drive screen. -/
theorem C5_witness :
    (afterKey DeviceSelectionScreen.step
      (afterKey DeviceSelectionScreen.step exScr " ") " ").selected_drives =
      exScr.selected_drives :=
  C5_toggle_involution exScr (by decide) (by decide) (by decide)
    (afterKey DeviceSelectionScreen.step exScr " ")
    (afterKey DeviceSelectionScreen.step
      (afterKey DeviceSelectionScreen.step exScr " ") " ")
    (by decide) (by decide)

/-- A concrete screen with `sda` pre-selected. -/
def exSel : DeviceSelectionScreen := DeviceSelectionScreen.init exDevices ["sda"]

/-- C6 as stated is false: `DeviceSelectionScreen.show` returns the list of
selected drives (not a string) on ENTER with a non-empty selection. -/
theorem C6_counterexample :
    DeviceSelectionScreen.step exSel "\n" = some (.ret (.drives {"sda"})) ∧
    (ShowRet.drives {"sda"}).isStr = false := by
  refine ⟨by decide, rfl⟩

/-- C6 (amended): every screen's `show` returns a string, except
`DeviceSelectionScreen.show`, which returns the list of selected drives when
ENTER is pressed with a non-empty selection and a string otherwise. -/
theorem C6_show_returns_string :
    (∀ (k : String) (r : ShowRet),
      WelcomeScreen.step k = some (.ret r) → r.isStr = true) ∧
    (∀ (s : ModeSelectionScreen) (k : String) (r : ShowRet),
      ModeSelectionScreen.step s k = some (.ret r) → r.isStr = true) ∧
    (∀ (k : String) (r : ShowRet),
      SettingsScreen.step k = some (.ret r) → r.isStr = true) ∧
    (∀ (k : String) (r : ShowRet),
      ValidationScreen.step k = some (.ret r) → r.isStr = true) ∧
    (∀ (k : String) (r : ShowRet),
      ConfirmationScreen.step k = some (.ret r) → r.isStr = true) ∧
    (∀ (α : Type) (scr : InstallationScreen α),
      (InstallationScreen.show scr).isStr = true) ∧
    (∀ k : String, (CompletionScreen.show k).isStr = true) ∧
    (∀ (s : DeviceSelectionScreen) (k : String) (r : ShowRet),
      DeviceSelectionScreen.step s k = some (.ret r) →
        r.isStr = true ∨ ((k = "\n" ∨ k = "\r") ∧ r = .drives s.selected_drives)) := by
  refine ⟨?_, ?_, ?_, ?_, ?_, fun α scr => rfl, fun k => rfl, ?_⟩
  · intro k r h
    unfold WelcomeScreen.step at h
    split_ifs at h <;> simp_all [ShowRet.isStr] <;> (subst h; rfl)
  · intro s k r h
    rcases mode_step_ret_spec h with ⟨m, -, rfl⟩ | rfl | rfl <;> rfl
  · intro k r h
    unfold SettingsScreen.step at h
    split_ifs at h <;> simp_all [ShowRet.isStr] <;> (subst h; rfl)
  · intro k r h
    unfold ValidationScreen.step at h
    split_ifs at h <;> simp_all [ShowRet.isStr] <;> (subst h; rfl)
  · intro k r h
    unfold ConfirmationScreen.step at h
    split_ifs at h <;> simp_all [ShowRet.isStr] <;> (subst h; rfl)
  · intro s k r h
    rcases device_step_ret_spec h with ⟨hk, -, rfl⟩ | rfl | rfl
    · exact Or.inr ⟨hk, rfl⟩
    · exact Or.inl rfl
    · exact Or.inl rfl

/-- Witness for C6 (amended) on the welcome screen with ENTER. -/
theorem C6_witness : ShowRet.isStr (.str "next") = true :=
  C6_show_returns_string.1 "\n" (.str "next") (by decide)

/-- C7: `InstallationScreen.show` does no installation work and reads no
input: whatever state it was constructed with, it returns `"success"`
unconditionally (the fixed `time.sleep(3)` delay has no modelled effect). -/
theorem C7_installation_is_stub (α : Type) (scr : InstallationScreen α) :
    InstallationScreen.show scr = .str "success" := rfl

/-- C8: the SPACE toggle is an involution: one press flips the membership of
the device under the cursor (adds it if absent, removes it if present) and
leaves other drives' membership unchanged; two presses with the cursor
unchanged restore the selection set exactly. -/
theorem C8_toggle_flips (s : DeviceSelectionScreen)
    (hne : s.device_list ≠ []) (h0 : 0 ≤ s.cursor)
    (h1 : s.cursor < s.device_list.length) (dev : String)
    (hdev : pyIndex s.device_list s.cursor = some dev)
    (s1 s2 : DeviceSelectionScreen)
    (h2 : DeviceSelectionScreen.step s " " = some (.loop s1))
    (h3 : DeviceSelectionScreen.step s1 " " = some (.loop s2)) :
    ((dev ∈ s1.selected_drives) ↔ dev ∉ s.selected_drives) ∧
    (∀ x, x ≠ dev →
      ((x ∈ s1.selected_drives) ↔ x ∈ s.selected_drives)) ∧
    s2.selected_drives = s.selected_drives := by
  rw [device_step_space hne hdev] at h2
  have hs1 := StepOut.loop.inj (Option.some.inj h2)
  have hfl : s1.device_list = s.device_list := by rw [← hs1]
  have hfc : s1.cursor = s.cursor := by rw [← hs1]
  have hfs : s1.selected_drives =
      (if dev ∈ s.selected_drives then s.selected_drives.erase dev
       else insert dev s.selected_drives) := by rw [← hs1]
  have hne1 : s1.device_list ≠ [] := by rw [hfl]; exact hne
  have hdev1 : pyIndex s1.device_list s1.cursor = some dev := by
    rw [hfl, hfc]; exact hdev
  rw [device_step_space hne1 hdev1] at h3
  have hs2 := StepOut.loop.inj (Option.some.inj h3)
  have hgoal : s2.selected_drives =
      (if dev ∈ s1.selected_drives then s1.selected_drives.erase dev
       else insert dev s1.selected_drives) := by rw [← hs2]
  refine ⟨?_, ?_, ?_⟩
  · rw [hfs]
    by_cases hmem : dev ∈ s.selected_drives <;>
      simp [hmem, Finset.not_mem_erase, Finset.mem_insert_self]
  · intro x hxd
    rw [hfs]
    by_cases hmem : dev ∈ s.selected_drives <;>
      simp [hmem, Finset.mem_erase, Finset.mem_insert, hxd]
  · rw [hgoal, hfs]
    by_cases hmem : dev ∈ s.selected_drives
    · simp [hmem, Finset.not_mem_erase, Finset.insert_erase hmem]
    · simp [hmem, Finset.erase_insert hmem]

/-- Witness for C8: one SPACE press on the concrete screen selects `sda`,
which was not previously selected. -/
theorem C8_witness :
    ("sda" ∈ (afterKey DeviceSelectionScreen.step exScr " ").selected_drives) ↔
      "sda" ∉ exScr.selected_drives :=
  (C8_toggle_flips exScr (by decide) (by decide) (by decide) "sda" (by decide)
    (afterKey DeviceSelectionScreen.step exScr " ")
    (afterKey DeviceSelectionScreen.step
      (afterKey DeviceSelectionScreen.step exScr " ") " ")
    (by decide) (by decide)).1

/-- C9: `format_size` computes `gb = size_bytes // 1024**3`, returns the
terabyte form `f"{gb // 1024}TB"` only for `gb` strictly greater than 1024 and
`f"{gb}GB"` otherwise; at exactly `1024 * 1024**3` bytes (gb = 1024) it
returns `"1024GB"`, not `"1TB"`. -/
theorem C9_format_size_boundary (size_bytes : Int) :
    (1024 < Int.fdiv size_bytes (1024 ^ 3) →
      DeviceSelectionScreen.format_size size_bytes =
        toString (Int.fdiv (Int.fdiv size_bytes (1024 ^ 3)) 1024) ++ "TB") ∧
    (Int.fdiv size_bytes (1024 ^ 3) ≤ 1024 →
      DeviceSelectionScreen.format_size size_bytes =
        toString (Int.fdiv size_bytes (1024 ^ 3)) ++ "GB") ∧
    DeviceSelectionScreen.format_size (1024 * 1024 ^ 3) = "1024GB" := by
  refine ⟨?_, ?_, by decide⟩
  · intro hgt
    simp only [DeviceSelectionScreen.format_size]
    rw [if_pos hgt]
  · intro hle
    simp only [DeviceSelectionScreen.format_size]
    rw [if_neg (not_lt.mpr hle)]

/-- Witness for C9 at the boundary input. -/
theorem C9_witness :
    DeviceSelectionScreen.format_size (1024 * 1024 ^ 3) =
      toString (Int.fdiv (1024 * 1024 ^ 3) (1024 ^ 3)) ++ "GB" :=
  (C9_format_size_boundary (1024 * 1024 ^ 3)).2.1 (by decide)

/-- C10 as stated is false: with an empty devices mapping but a non-empty
initial selection, ENTER does return, and returns a list of drives. -/
theorem C10_counterexample :
    DeviceSelectionScreen.step (DeviceSelectionScreen.init [] ["sda"]) "\n" =
      some (.ret (.drives {"sda"})) ∧
    (ShowRet.drives {"sda"}).isStr = false := by
  refine ⟨by decide, rfl⟩

/-- C10 (amended): constructed from an empty devices mapping and an empty
initial selection, every SPACE, ENTER, down/j and up/k key leaves the state
unchanged and never indexes the empty list, and `show` can only keep looping
in the same state or return "back" or "quit" — never a list of drives. -/
theorem C10_empty_devices_safe :
    DeviceSelectionScreen.step exEmpty " " = some (.loop exEmpty) ∧
    DeviceSelectionScreen.step exEmpty "\n" = some (.loop exEmpty) ∧
    DeviceSelectionScreen.step exEmpty "\r" = some (.loop exEmpty) ∧
    DeviceSelectionScreen.step exEmpty "j" = some (.loop exEmpty) ∧
    DeviceSelectionScreen.step exEmpty "down" = some (.loop exEmpty) ∧
    DeviceSelectionScreen.step exEmpty "k" = some (.loop exEmpty) ∧
    DeviceSelectionScreen.step exEmpty "up" = some (.loop exEmpty) ∧
    ∀ ks : List String,
      runKeys DeviceSelectionScreen.step exEmpty ks = some (.loop exEmpty) ∨
      runKeys DeviceSelectionScreen.step exEmpty ks = some (.ret (.str "back")) ∨
      runKeys DeviceSelectionScreen.step exEmpty ks = some (.ret (.str "quit")) := by
  refine ⟨by decide, by decide, by decide, by decide, by decide, by decide,
    by decide, ?_⟩
  intro ks
  obtain ⟨out, hout, hloop, hret⟩ := runKeys_inv DeviceSelectionScreen.step
    (fun s => s = exEmpty)
    (fun r => r = .str "back" ∨ r = .str "quit")
    (fun s k hP => by
      subst hP
      cases hout : DeviceSelectionScreen.step exEmpty k with
      | none =>
        exact absurd hout
          (device_step_isSome exEmpty k (Or.inl rfl))
      | some out =>
        refine ⟨out, rfl, ?_, ?_⟩
        · intro s' hs'
          subst hs'
          obtain ⟨hd, hl, hselc, hcurc⟩ :=
            device_step_loop_spec hout
          rcases hselc with hss | ⟨dev, hdev, -⟩
          · rcases hcurc with hcc | ⟨hne2, -⟩
            · exact device_ext_fields hd hss hcc hl
            · exact absurd rfl hne2
          · exact Option.noConfusion hdev
        · intro r hr
          subst hr
          rcases device_step_ret_spec hout with ⟨-, hcard, -⟩ | h | h
          · exact absurd hcard (by decide)
          · exact Or.inl h
          · exact Or.inr h)
    ks exEmpty rfl
  cases out with
  | loop s' =>
    refine Or.inl ?_
    rw [hout, hloop s' rfl]
  | ret r =>
    rcases hret r rfl with h | h
    · refine Or.inr (Or.inl ?_)
      rw [hout, h]
    · refine Or.inr (Or.inr ?_)
      rw [hout, h]
